import Mathlib

/-!
Shallow embedding of the nova-lang compiler front-end (lexer, parser,
type checker, code-generation driver) and proofs about it.

The embedding follows the Rust sources:
  src/lexer.rs     - token set and lexical rules (logos-derived; modelled as
                     maximal-munch with fixed tokens taking priority over the
                     identifier pattern at equal length, as logos does)
  src/parser.rs    - recursive-descent parser over a token vector with an
                     unchecked index in current_token (modelled as a distinct
                     panic outcome)
  src/types.rs     - Type and TypeEnvironment
  src/typecheck.rs - TypeChecker::check
  src/codegen.rs   - CodeGen::generate_expression and helpers; the LLVM
                     backend is modelled as an instruction list per entry
                     block, since the backend itself is an external library

Loops in the Rust code are embedded with an explicit fuel parameter; fuel
exhaustion is a separate outcome (`outOfFuel`) distinct from success, parse
error and panic, and the top-level entry points supply fuel that is ample
for the token count, so it never occurs in any statement proved below.
-/

/-- Tokens of src/lexer.rs. `StringLiteral` carries no payload, exactly as in
the source (the regex variant has no field). -/
inductive Token where
  | Function
  | Let
  | Return
  | If
  | Identifier (s : String)
  | Number (n : Int)
  | LeftParen
  | RightParen
  | LeftBrace
  | RightBrace
  | Semicolon
  | Equals
  | TypeInt
  | TypeFloat
  | TypeBool
  | TypeString
  | Plus
  | Minus
  | Multiply
  | Divide
  | Colon
  | True
  | False
  | StringLiteral
  | Comma
  | Error
  deriving Repr, DecidableEq

/-- The binary operators of src/parser.rs. -/
inductive BinaryOperator where
  | Add
  | Subtract
  | Multiply
  | Divide
  deriving Repr, DecidableEq

/-- AstNode of src/parser.rs. -/
inductive AstNode where
  | Program (nodes : List AstNode)
  | Number (n : Int)
  | Identifier (name : String)
  | Let (name : String) ( type_annotation : Option String) (value : AstNode)
  | Function (name : String) (params : List (String × String)) (body : AstNode)
  | Return (e : AstNode)
  | BinaryOp (op : BinaryOperator) (left : AstNode) (right : AstNode)
  | StringLiteral (s : String)
  | Boolean (b : Bool)
  deriving Repr

/-- Type of src/types.rs (named `Ty` here because `Type` is reserved in Lean). -/
inductive Ty where
  | Int
  | Float
  | Bool
  | String
  | Void
  | Function (params : List Ty) (return_type : Ty)
  deriving Repr

/-! ## Lexer (src/lexer.rs)

The logos-derived lexer applies maximal munch; when a fixed `#[token]`
literal and the identifier regex match the same length, the fixed token has
the higher priority (so `i32` lexes as `TypeInt`, while `i32x` lexes as
`Identifier "i32x"`). Whitespace is skipped; any other unmatched character
becomes the `Error` token. A number whose digits overflow `i64` also becomes
`Error` (the callback `parse().ok()` returns `None`). -/

/-- Whitespace skipped by the lexer: the regex `[ \t\n\f]+`. -/
def isWhitespaceChar (c : Char) : Bool :=
  c = ' ' || c = '\t' || c = '\n' || c = '\x0c'

/-- First character of the identifier regex `[A-Za-z][A-Za-z0-9_]*`. -/
def isAlphaChar (c : Char) : Bool :=
  ('A' ≤ c && c ≤ 'Z') || ('a' ≤ c && c ≤ 'z')

/-- A digit, for the number regex `[0-9]+`. -/
def isDigitChar (c : Char) : Bool :=
  '0' ≤ c && c ≤ '9'

/-- Continuation character of the identifier regex. -/
def isIdentContinue (c : Char) : Bool :=
  isAlphaChar c || isDigitChar c || c = '_'

/-- Resolve a maximal identifier-shaped run: the fixed word tokens of
src/lexer.rs win over `Identifier` at equal length. -/
def wordToken (s : String) : Token :=
  if s = "fn" then Token.Function
  else if s = "let" then Token.Let
  else if s = "return" then Token.Return
  else if s = "if" then Token.If
  else if s = "i32" then Token.TypeInt
  else if s = "f64" then Token.TypeFloat
  else if s = "bool" then Token.TypeBool
  else if s = "string" then Token.TypeString
  else if s = "true" then Token.True
  else if s = "false" then Token.False
  else Token.Identifier s

/-- Numeric value of a digit run. -/
def digitsVal (cs : List Char) : Nat :=
  cs.foldl (fun a c => a * 10 + (c.toNat - '0'.toNat)) 0

/-- Largest value of Rust's `i64`, the payload type of `Token::Number`. -/
def i64Max : Nat := 9223372036854775807

/-- Single-character punctuation tokens of src/lexer.rs; any other
non-word, non-digit, non-string character is the `Error` token. -/
def symToken (c : Char) : Token :=
  if c = '(' then Token.LeftParen
  else if c = ')' then Token.RightParen
  else if c = '\x7b' then Token.LeftBrace
  else if c = '\x7d' then Token.RightBrace
  else if c = ';' then Token.Semicolon
  else if c = '=' then Token.Equals
  else if c = '+' then Token.Plus
  else if c = '-' then Token.Minus
  else if c = '*' then Token.Multiply
  else if c = '/' then Token.Divide
  else if c = ':' then Token.Colon
  else if c = ',' then Token.Comma
  else Token.Error

/-- One lexing step per unit of fuel; every step consumes at least one
character, so fuel `length + 1` suffices. -/
def lexChars : Nat → List Char → List Token
  | 0, _ => []
  | _, [] => []
  | fuel + 1, c :: cs =>
    if isWhitespaceChar c then lexChars fuel cs
    else if isAlphaChar c then
      let run := (c :: cs).takeWhile isIdentContinue
      let rest := (c :: cs).dropWhile isIdentContinue
      wordToken (String.mk run) :: lexChars fuel rest
    else if isDigitChar c then
      let run := (c :: cs).takeWhile isDigitChar
      let rest := (c :: cs).dropWhile isDigitChar
      (if digitsVal run ≤ i64Max then Token.Number (Int.ofNat (digitsVal run))
       else Token.Error) :: lexChars fuel rest
    else if c = '"' then
      match cs.dropWhile (fun d => d ≠ '"') with
      | [] => Token.Error :: lexChars fuel cs
      | _ :: rest => Token.StringLiteral :: lexChars fuel rest
    else
      symToken c :: lexChars fuel cs

/-- `Token::lexer(source).collect()`, as the driver and tests call it. -/
def lexString (s : String) : List Token :=
  lexChars (s.length + 1) s.toList

/-! ## Parser (src/parser.rs)

`Parser` holds the token vector and a cursor. `current_token` indexes
`self.tokens[self.current]` without a bounds check, so a cursor at or past
the end is a Rust panic; the embedding makes that a distinct `panic`
outcome so the theorems can speak about it. Each parsing function returns
its result together with the updated parser state. -/

/-- Parser state: the `tokens` vector and `current` cursor of src/parser.rs. -/
structure ParserSt where
  tokens : List Token
  current : Nat
  deriving Repr, DecidableEq

/-- Outcome of a parsing function: success with updated state, a syntax
error (`Err(String)` in the source), a panic from the unchecked token index,
or fuel exhaustion (an artifact of the loop embedding, never reached from
the entry points below). -/
inductive POut (α : Type) where
  | ok (a : α) (s : ParserSt)
  | err (e : String)
  | panic
  | outOfFuel
  deriving Repr

/-- `Parser::current_token`: `&self.tokens[self.current]`, `none` when the
index is out of bounds (a panic in Rust). -/
def currentToken? (s : ParserSt) : Option Token :=
  s.tokens.get? s.current

/-- `Parser::advance`. -/
def advance (s : ParserSt) : ParserSt :=
  { s with current := s.current + 1 }

/-- `Parser::parse_type`. -/
def parseType (s : ParserSt) : POut Ty :=
  match currentToken? s with
  | none => POut.panic
  | some Token.TypeInt => POut.ok Ty.Int (advance s)
  | some Token.TypeFloat => POut.ok Ty.Float (advance s)
  | some _ => POut.err "Expected type"

/-- `Parser::parse_primary`. For a string literal the source stores the
`Display` rendering of the token, which is the fixed text "string literal". -/
def parsePrimary (s : ParserSt) : POut AstNode :=
  match currentToken? s with
  | none => POut.panic
  | some (Token.Number n) => POut.ok (AstNode.Number n) (advance s)
  | some Token.StringLiteral => POut.ok (AstNode.StringLiteral "string literal") (advance s)
  | some Token.True => POut.ok (AstNode.Boolean true) (advance s)
  | some Token.False => POut.ok (AstNode.Boolean false) (advance s)
  | some (Token.Identifier name) => POut.ok (AstNode.Identifier name) (advance s)
  | some _ => POut.err "Expected expression"

/-- The operator-token table of the `while let` head in
`Parser::parse_binary_expression`. -/
def opOfToken : Token → Option BinaryOperator
  | Token.Plus => some BinaryOperator.Add
  | Token.Minus => some BinaryOperator.Subtract
  | Token.Multiply => some BinaryOperator.Multiply
  | Token.Divide => some BinaryOperator.Divide
  | _ => none

/-- The `while let` loop of `Parser::parse_binary_expression`: as long as
the current token is one of `+ - * /`, fold the next primary into the left
operand. -/
def parseBinaryLoop : Nat → AstNode → ParserSt → POut AstNode
  | 0, _, _ => POut.outOfFuel
  | fuel + 1, left, s =>
    match currentToken? s with
    | none => POut.panic
    | some t =>
      match opOfToken t with
      | some op =>
        match parsePrimary (advance s) with
        | POut.ok right s1 =>
            parseBinaryLoop fuel (AstNode.BinaryOp op left right) s1
        | POut.err e => POut.err e
        | POut.panic => POut.panic
        | POut.outOfFuel => POut.outOfFuel
      | none => POut.ok left s

/-- `Parser::parse_expression`, which simply calls
`parse_binary_expression`: one leading primary, then the operator loop. -/
def parseExpression (fuel : Nat) (s : ParserSt) : POut AstNode :=
  match parsePrimary s with
  | POut.ok left s1 => parseBinaryLoop fuel left s1
  | POut.err e => POut.err e
  | POut.panic => POut.panic
  | POut.outOfFuel => POut.outOfFuel

/-- Tail of `Parser::parse_let_statement` after the name and optional
annotation: expect `=`, parse the value, expect `;`. -/
def parseLetTail (fuel : Nat) (name : String) (ann : Option String)
    (s : ParserSt) : POut AstNode :=
  match currentToken? s with
  | none => POut.panic
  | some Token.Equals =>
    match parseExpression fuel (advance s) with
    | POut.ok value s1 =>
      match currentToken? s1 with
      | none => POut.panic
      | some Token.Semicolon =>
          POut.ok (AstNode.Let name ann value) (advance s1)
      | some _ => POut.err "Expected ';' after let statement"
    | POut.err e => POut.err e
    | POut.panic => POut.panic
    | POut.outOfFuel => POut.outOfFuel
  | some _ => POut.err "Expected '=' after type annotation"

/-- `Parser::parse_let_statement`. The annotation position accepts only an
`Identifier` token (the keyword tokens `i32`, `f64`, `bool`, `string` are
not identifiers). -/
def parseLetStatement (fuel : Nat) (s0 : ParserSt) : POut AstNode :=
  let s := advance s0
  match currentToken? s with
  | none => POut.panic
  | some (Token.Identifier id) =>
    let s1 := advance s
    match currentToken? s1 with
    | none => POut.panic
    | some Token.Colon =>
      let s2 := advance s1
      match currentToken? s2 with
      | none => POut.panic
      | some (Token.Identifier ty) => parseLetTail fuel id (some ty) (advance s2)
      | some _ => POut.err "Expected type name after ':'"
    | some _ => parseLetTail fuel id none s1
  | some _ => POut.err "Expected variable name"

/-- The statement loop of `Parser::parse_block`: only `return` statements
are accepted until the closing brace. -/
def parseBlockLoop : Nat → List AstNode → ParserSt → POut AstNode
  | 0, _, _ => POut.outOfFuel
  | fuel + 1, statements, s =>
    match currentToken? s with
    | none => POut.panic
    | some Token.RightBrace => POut.ok (AstNode.Program statements) (advance s)
    | some Token.Return =>
      match parseExpression fuel (advance s) with
      | POut.ok expr s1 =>
        match currentToken? s1 with
        | none => POut.panic
        | some Token.Semicolon =>
            parseBlockLoop fuel (statements ++ [AstNode.Return expr]) (advance s1)
        | some _ => POut.err "Expected ';' after return statement"
      | POut.err e => POut.err e
      | POut.panic => POut.panic
      | POut.outOfFuel => POut.outOfFuel
    | some _ => POut.err "Unexpected token in function body"

/-- The parameter loop of `Parser::parse_function`; on exit the closing
`)` is consumed. A parameter's type position, like a let annotation,
accepts only an `Identifier` token. -/
def parseParamsLoop : Nat → List (String × String) → ParserSt →
    POut (List (String × String))
  | 0, _, _ => POut.outOfFuel
  | fuel + 1, params, s =>
    match currentToken? s with
    | none => POut.panic
    | some Token.RightParen => POut.ok params (advance s)
    | some (Token.Identifier p) =>
      let s1 := advance s
      match currentToken? s1 with
      | none => POut.panic
      | some Token.Colon =>
        let s2 := advance s1
        match currentToken? s2 with
        | none => POut.panic
        | some (Token.Identifier ty) =>
          let s3 := advance s2
          match currentToken? s3 with
          | none => POut.panic
          | some Token.Comma => parseParamsLoop fuel (params ++ [(p, ty)]) (advance s3)
          | some _ => parseParamsLoop fuel (params ++ [(p, ty)]) s3
        | some _ => POut.err "Expected type name after ':'"
      | some _ => POut.err "Expected ':' after parameter name"
    | some _ => POut.err "Expected parameter name"

/-- `Parser::parse_function`: name, parameter list, `:` and return type,
then the braced body parsed by `parse_block`. -/
def parseFunction (fuel : Nat) (s0 : ParserSt) : POut AstNode :=
  let s := advance s0
  match currentToken? s with
  | none => POut.panic
  | some (Token.Identifier id) =>
    let s1 := advance s
    match currentToken? s1 with
    | none => POut.panic
    | some Token.LeftParen =>
      match parseParamsLoop fuel [] (advance s1) with
      | POut.ok params s2 =>
        match currentToken? s2 with
        | none => POut.panic
        | some Token.Colon =>
          match parseType (advance s2) with
          | POut.ok _ s3 =>
            match currentToken? s3 with
            | none => POut.panic
            | some Token.LeftBrace =>
              match parseBlockLoop fuel [] (advance s3) with
              | POut.ok body s4 => POut.ok (AstNode.Function id params body) s4
              | POut.err e => POut.err e
              | POut.panic => POut.panic
              | POut.outOfFuel => POut.outOfFuel
            | some _ => POut.err "Expected '\x7b' to begin function body"
          | POut.err e => POut.err e
          | POut.panic => POut.panic
          | POut.outOfFuel => POut.outOfFuel
        | some _ => POut.err "Expected ':' after parameters"
      | POut.err e => POut.err e
      | POut.panic => POut.panic
      | POut.outOfFuel => POut.outOfFuel
    | some _ => POut.err "Expected '(' after function name"
  | some _ => POut.err "Expected function name"

/-- `Parser::parse_declaration`. -/
def parseDeclaration (fuel : Nat) (s : ParserSt) : POut AstNode :=
  match currentToken? s with
  | none => POut.panic
  | some Token.Function => parseFunction fuel s
  | some Token.Let => parseLetStatement fuel s
  | some _ => POut.err "Expected declaration"

/-- The `while self.current < self.tokens.len()` loop of `Parser::parse`. -/
def parseLoop : Nat → List AstNode → ParserSt → POut AstNode
  | 0, _, _ => POut.outOfFuel
  | fuel + 1, program, s =>
    if s.current < s.tokens.length then
      match parseDeclaration fuel s with
      | POut.ok d s1 => parseLoop fuel (program ++ [d]) s1
      | POut.err e => POut.err e
      | POut.panic => POut.panic
      | POut.outOfFuel => POut.outOfFuel
    else POut.ok (AstNode.Program program) s

/-- Ample fuel for a token list: every loop iteration consumes at least one
token, so this bound is never reached. -/
def fuelFor (ts : List Token) : Nat := 8 * ts.length + 16

/-- `Parser::new(tokens)` followed by `Parser::parse()`. -/
def parseTokens (ts : List Token) : POut AstNode :=
  parseLoop (fuelFor ts) [] { tokens := ts, current := 0 }

/-- The parsed program of a successful parse, if any. -/
def astOf : POut AstNode → Option AstNode
  | POut.ok a _ => some a
  | _ => none

/-! ## Type checker (src/typecheck.rs, src/types.rs)

`TypeEnvironment` wraps a `HashMap<String, Type>`; it is modelled as an
association list whose `insert` conses the new binding in front (lookups
find the first match, so the observable get-after-insert behavior is that
of the hash map's overwrite). `TypeChecker::check` takes `&mut self`, so
the embedding threads the environment through and returns it next to the
`Result`. -/

mutual

/-- Structural equality of types, `PartialEq` on `Type` in src/types.rs. -/
def tyBeq : Ty → Ty → Bool
  | Ty.Int, Ty.Int => true
  | Ty.Float, Ty.Float => true
  | Ty.Bool, Ty.Bool => true
  | Ty.String, Ty.String => true
  | Ty.Void, Ty.Void => true
  | Ty.Function ps r, Ty.Function qs t => tyListBeq ps qs && tyBeq r t
  | _, _ => false

/-- Elementwise equality of type lists, `PartialEq` on `Vec<Type>`. -/
def tyListBeq : List Ty → List Ty → Bool
  | [], [] => true
  | p :: ps, q :: qs => tyBeq p q && tyListBeq ps qs
  | _, _ => false

end

mutual

/-- The `{:?}` (derived `Debug`) rendering of a `Type`, used by the type
mismatch message. -/
def tyDebug : Ty → String
  | Ty.Int => "Int"
  | Ty.Float => "Float"
  | Ty.Bool => "Bool"
  | Ty.String => "String"
  | Ty.Void => "Void"
  | Ty.Function ps r =>
      "Function \x7b params: [" ++ tyDebugList ps ++ "], return_type: " ++ tyDebug r ++ " \x7d"

/-- Comma-separated `Debug` rendering of a `Vec<Type>`. -/
def tyDebugList : List Ty → String
  | [] => ""
  | [t] => tyDebug t
  | t :: ts => tyDebug t ++ ", " ++ tyDebugList ts

end

/-- `TypeEnvironment` of src/types.rs, as an association list. -/
abbrev TypeEnvironment := List (String × Ty)

/-- `TypeEnvironment::insert`. The new binding shadows any older one, which
is observably the hash map's overwrite. -/
def insertEnv (env : TypeEnvironment) (name : String) (ty : Ty) : TypeEnvironment :=
  (name, ty) :: env

/-- `TypeEnvironment::get`: the first (most recent) binding of a name. -/
def lookupEnv : TypeEnvironment → String → Option Ty
  | [], _ => none
  | (k, v) :: rest, name => if k = name then some v else lookupEnv rest name

/-- The annotation-resolution table of the `Let` arm of
`TypeChecker::check`: only the names "int", "float", "string" and "bool"
resolve (notably not the surface keywords `i32` / `f64`). -/
def resolveTypeName (name : String) : Option Ty :=
  if name = "int" then some Ty.Int
  else if name = "float" then some Ty.Float
  else if name = "string" then some Ty.String
  else if name = "bool" then some Ty.Bool
  else none

mutual

/-- `TypeChecker::check`. Returns the Rust `Result<Type, String>` paired
with the environment after the call (the Rust receiver is `&mut self`). -/
def check : AstNode → TypeEnvironment → Except String Ty × TypeEnvironment
  | AstNode.Program nodes, env => checkSeq Ty.Void nodes env
  | AstNode.Function name _ body, env =>
    match check body env with
    | (Except.ok body_type, env1) =>
        (Except.ok body_type, insertEnv env1 name (Ty.Function [] body_type))
    | (Except.error e, env1) => (Except.error e, env1)
  | AstNode.Number _, env => (Except.ok Ty.Int, env)
  | AstNode.StringLiteral _, env => (Except.ok Ty.String, env)
  | AstNode.Boolean _, env => (Except.ok Ty.Bool, env)
  | AstNode.Let name ann value, env =>
    match check value env with
    | (Except.error e, env1) => (Except.error e, env1)
    | (Except.ok value_type, env1) =>
      match ann with
      | some type_name =>
        match resolveTypeName type_name with
        | none => (Except.error ("Unknown type: " ++ type_name), env1)
        | some expected_type =>
          if tyBeq value_type expected_type then
            (Except.ok value_type, insertEnv env1 name value_type)
          else
            (Except.error ("Type mismatch: expected " ++ tyDebug expected_type ++
                ", got " ++ tyDebug value_type), env1)
      | none => (Except.ok value_type, insertEnv env1 name value_type)
  | AstNode.Return e, env => check e env
  | AstNode.Identifier _, env => (Except.error "Unsupported node type for type checking", env)
  | AstNode.BinaryOp _ _ _, env => (Except.error "Unsupported node type for type checking", env)

/-- The `for node in nodes` loop of the `Program` arm: `last_type` starts
at `Void` and each child's type replaces it; `?` propagates the first
error. -/
def checkSeq : Ty → List AstNode → TypeEnvironment → Except String Ty × TypeEnvironment
  | last_type, [], env => (Except.ok last_type, env)
  | _, n :: ns, env =>
    match check n env with
    | (Except.ok t, env1) => checkSeq t ns env1
    | (Except.error e, env1) => (Except.error e, env1)

end

/-! ## Code-generation driver (src/codegen.rs)

The LLVM backend (inkwell) is external; the model records what the driver
asks it to build. A `Value` is either a 32-bit integer constant (from
`generate_value` on a `Number`) or the result of a load; an `Instr` is one
instruction appended by the builder to the current entry block. Slots
stand for the opaque `PointerValue`s returned by `build_alloca`. The
builder `build_*` calls themselves are modelled as always succeeding, as
§6 of the design treats them: their failure modes belong to the backend.
Following the source, `get_terminator()` inspects the last instruction of
the block, and `verify` (modelled from the spec: a structural check that
the function body is well formed, i.e. terminated exactly at its end)
decides between `Ok` and the "Invalid function generated" error. -/

/-- A backend value handle: `const_int` of the `i32` type on a `Number`
(the `i64` literal is narrowed: `*n as u64` into a 32-bit constant), or
the value loaded from a slot. -/
inductive Value where
  | constI32 (n : Int)
  | loaded (slot : Nat)
  deriving Repr, DecidableEq

/-- One builder instruction appended to the current block. -/
inductive Instr where
  | alloca (slot : Nat) (name : String)
  | store (slot : Nat) (v : Value)
  | load (width : Nat) (slot : Nat) (name : String)
  | ret (v : Value)
  deriving Repr, DecidableEq

/-- `CodeGen` state: the current entry block's instructions, the
`variables` name-to-slot map, and a counter for fresh slots. -/
structure CGState where
  block : List Instr
  vars : List (String × Nat)
  nextSlot : Nat
  deriving Repr, DecidableEq

/-- `CodeGen::new`: empty module, empty variables map. -/
def initCG : CGState := { block := [], vars := [], nextSlot := 0 }

/-- The builder appends one instruction at the end of the current block. -/
def emit (st : CGState) (i : Instr) : CGState :=
  { st with block := st.block ++ [i] }

/-- `self.variables.get(name)`: first (most recent) binding, matching the
hash map whose `insert` overwrites. -/
def lookupVar : List (String × Nat) → String → Option Nat
  | [], _ => none
  | (k, v) :: rest, name => if k = name then some v else lookupVar rest name

/-- Whether an instruction is a block terminator (here only `ret`). -/
def isTerminator : Instr → Bool
  | Instr.ret _ => true
  | _ => false

/-- `get_insert_block().get_terminator().is_some()`: LLVM reports a
terminator when the block's last instruction is one. -/
def blockTerminated (b : List Instr) : Bool :=
  match b.getLast? with
  | some i => isTerminator i
  | none => false

/-- Modelled from the spec: backend `function.verify` is a structural
check that the generated body is well formed — terminated at its end and
nowhere before (§6 and glossary of the design; the verifier itself lives
in the external LLVM library, not under src/). -/
def verifyBlock (b : List Instr) : Bool :=
  blockTerminated b && b.dropLast.all (fun i => !isTerminator i)

/-- The `i32` narrowing of a `Number` literal in `generate_value`:
`*n as u64` reinterpreted into a 32-bit constant. -/
def i32Norm (n : Int) : Int := n.emod (2 ^ 32)

/-- `CodeGen::load_variable`: look the name up in `variables`; absent is
the "Undefined variable" error, present emits a 64-bit load from the
recorded slot. -/
def load_variable (st : CGState) (name : String) : Except String Value × CGState :=
  match lookupVar st.vars name with
  | some slot => (Except.ok (Value.loaded slot), emit st (Instr.load 64 slot name))
  | none => (Except.error ("Undefined variable: " ++ name), st)

/-- `CodeGen::generate_value`: an i32 constant for a `Number`, a variable
load for an `Identifier`, an error otherwise. -/
def generate_value (st : CGState) (e : AstNode) : Except String Value × CGState :=
  match e with
  | AstNode.Number n => (Except.ok (Value.constI32 (i32Norm n)), st)
  | AstNode.Identifier name => load_variable st name
  | _ => (Except.error "Unsupported expression for value generation", st)

mutual

/-- `CodeGen::generate_expression`. In the `Function` arm the source
matches on the body and, for a `Program` body, runs the same per-statement
loop that the `Program` arm itself runs; the embedding calls
`generate_expression` on the body in both cases, which is that exact
behavior. -/
def generate_expression : CGState → AstNode → Except String Unit × CGState
  | st, AstNode.Program nodes => genSeq st nodes
  | st, AstNode.Number _ => (Except.ok (), st)
  | st, AstNode.Let name _ value =>
    match generate_value st value with
    | (Except.error e, st1) => (Except.error e, st1)
    | (Except.ok v, st1) =>
      let slot := st1.nextSlot
      let st2 := emit { st1 with nextSlot := st1.nextSlot + 1 } (Instr.alloca slot name)
      let st3 := emit st2 (Instr.store slot v)
      (Except.ok (), { st3 with vars := (name, slot) :: st3.vars })
  | st, AstNode.Function _ _ body =>
    let st1 : CGState := { st with block := [] }
    match generate_expression st1 body with
    | (Except.error e, st2) => (Except.error e, st2)
    | (Except.ok _, st2) =>
      let st3 := if blockTerminated st2.block then st2
                 else emit st2 (Instr.ret (Value.constI32 0))
      if verifyBlock st3.block then (Except.ok (), st3)
      else (Except.error "Invalid function generated", st3)
  | st, AstNode.Return e =>
    match generate_value st e with
    | (Except.error er, st1) => (Except.error er, st1)
    | (Except.ok v, st1) => (Except.ok (), emit st1 (Instr.ret v))
  | st, AstNode.Identifier _ => (Except.ok (), st)
  | st, AstNode.BinaryOp _ _ _ => (Except.ok (), st)
  | st, AstNode.StringLiteral _ => (Except.ok (), st)
  | st, AstNode.Boolean _ => (Except.ok (), st)

/-- The `for node in nodes` loops of the `Program` arms of
`CodeGen::generate` and `generate_expression`, with `?` propagation. -/
def genSeq : CGState → List AstNode → Except String Unit × CGState
  | st, [] => (Except.ok (), st)
  | st, n :: ns =>
    match generate_expression st n with
    | (Except.ok _, st1) => genSeq st1 ns
    | (Except.error e, st1) => (Except.error e, st1)

end

/-! ## Auxiliary definitions used by the theorems -/

/-- An AST with no binding construct anywhere inside: no `Let`, no
`Function` and no `Program` node. Checking such a node can never insert
into the type environment. -/
def noBind : AstNode → Bool
  | AstNode.Number _ => true
  | AstNode.StringLiteral _ => true
  | AstNode.Boolean _ => true
  | AstNode.Identifier _ => true
  | AstNode.BinaryOp _ l r => noBind l && noBind r
  | AstNode.Return e => noBind e
  | AstNode.Program _ => false
  | AstNode.Let _ _ _ => false
  | AstNode.Function _ _ _ => false

/-- The token spelling of each binary operator, inverse of `opOfToken`. -/
def opTokenOf : BinaryOperator → Token
  | BinaryOperator.Add => Token.Plus
  | BinaryOperator.Subtract => Token.Minus
  | BinaryOperator.Multiply => Token.Multiply
  | BinaryOperator.Divide => Token.Divide

/-! ## Helper lemmas -/

/-- Appending a `ret` to a block always leaves the block terminated. -/
theorem blockTerminated_concat (b : List Instr) (v : Value) :
    blockTerminated (b ++ [Instr.ret v]) = true := by
  induction b with
  | nil => rfl
  | cons i rest ih =>
    cases hr : rest ++ [Instr.ret v] with
    | nil => simp at hr
    | cons j js =>
      simpa [blockTerminated, List.getLast?, hr] using
        (by simpa [blockTerminated, hr] using ih)

/-- The verification step at the end of the `Function` arm returns the
same state whether verification passes or fails. -/
theorem snd_verify_ite (x : CGState) :
    ((if verifyBlock x.block then (Except.ok (), x)
      else ((Except.error "Invalid function generated" : Except String Unit), x)) :
      Except String Unit × CGState).2 = x := by
  split <;> rfl

/-- `checkSeq` over an appended list runs the first list, then feeds its
last type and environment into the second. -/
theorem checkSeq_append (ns ms : List AstNode) (last : Ty) (env : TypeEnvironment) :
    checkSeq last (ns ++ ms) env =
      match checkSeq last ns env with
      | (Except.ok t, env1) => checkSeq t ms env1
      | (Except.error e, env1) => (Except.error e, env1) := by
  induction ns generalizing last env with
  | nil => simp [checkSeq]
  | cons n ns ih =>
    simp only [List.cons_append, checkSeq]
    rcases hc : check n env with ⟨r, env1⟩
    cases r with
    | ok t => simp [ih]
    | error e => simp

/-- Checking a node with no binding construct leaves the environment
untouched, whether or not the check succeeds. -/
theorem check_noBind : ∀ (e : AstNode), noBind e = true →
    ∀ env : TypeEnvironment, (check e env).2 = env
  | AstNode.Number _, _, _ => rfl
  | AstNode.StringLiteral _, _, _ => rfl
  | AstNode.Boolean _, _, _ => rfl
  | AstNode.Identifier _, _, _ => rfl
  | AstNode.BinaryOp _ _ _, _, _ => rfl
  | AstNode.Return e1, h, env => check_noBind e1 h env
  | AstNode.Program _, h, _ => by simp [noBind] at h
  | AstNode.Let _ _ _, h, _ => by simp [noBind] at h
  | AstNode.Function _ _ _, h, _ => by simp [noBind] at h

/-! ## Claims -/

/-- C1: the claim states that parsing `let x: i32 = 42;` succeeds with the
node `Let\x7bname: "x", type_annotation: Some("i32"), value: Number(42)\x7d` and
that type-checking that node yields `Int`. The code does neither: `i32`
lexes as the keyword token `TypeInt`, which `parse_let_statement` rejects
in annotation position ("Expected type name after ':'"), and the checker's
annotation table resolves only "int"/"float"/"string"/"bool", so even the
hand-built node fails with "Unknown type: i32". This theorem records both
divergences of the code from the claim. -/
theorem let_i32_divergence :
    parseTokens (lexString "let x: i32 = 42;") = POut.err "Expected type name after ':'"
    ∧ check (AstNode.Let "x" (some "i32") (AstNode.Number 42)) []
        = (Except.error "Unknown type: i32", []) :=
  ⟨rfl, rfl⟩

/-- C2: the claim states the parser always returns a Program or a
SyntaxError and never panics, in particular not on a token sequence that
ends mid-declaration. The code violates this: `current_token` indexes
`self.tokens[self.current]` unchecked, so the one-token sequence `[Let]`
(source text "let") drives the cursor past the end inside
`parse_let_statement` and panics. -/
theorem parser_truncated_input_panics :
    lexString "let" = [Token.Let] ∧ parseTokens [Token.Let] = POut.panic :=
  ⟨by decide, rfl⟩

/-- C3 counterexample: the round-trip source of the claim,
`fn main(): i32 \x7b let a: i32 = 1; return a; \x7d`, does not parse:
`parse_block` accepts only `return` statements inside a function body, so
the `let` is rejected with "Unexpected token in function body". -/
theorem roundtrip_let_body_rejected :
    parseTokens (lexString "fn main(): i32 \x7b let a: i32 = 1; return a; \x7d")
      = POut.err "Unexpected token in function body" :=
  rfl

/-- C3 amended: with a body of the only statement kind `parse_block`
accepts, the pipeline of the claim goes through: the source
`fn main(): i32 \x7b return 1; \x7d` tokenizes and parses to a `Program` of one
`Function` whose body is a `Program` of one `Return(Number(1))`,
type-checks to `Int`, and code generation produces a function whose entry
block is the single instruction `ret` of the 32-bit constant 1. -/
theorem roundtrip_return_only_pipeline :
    astOf (parseTokens (lexString "fn main(): i32 \x7b return 1; \x7d"))
      = some (AstNode.Program [AstNode.Function "main" []
          (AstNode.Program [AstNode.Return (AstNode.Number 1)])])
    ∧ check (AstNode.Program [AstNode.Function "main" []
          (AstNode.Program [AstNode.Return (AstNode.Number 1)])]) []
        = (Except.ok Ty.Int, [("main", Ty.Function [] Ty.Int)])
    ∧ generate_expression initCG (AstNode.Program [AstNode.Function "main" []
          (AstNode.Program [AstNode.Return (AstNode.Number 1)])])
        = (Except.ok (), { block := [Instr.ret (Value.constI32 1)], vars := [], nextSlot := 0 }) :=
  ⟨rfl, rfl, rfl⟩

/-- C4 counterexample: the claim states that parsing
`fn main() \x7b return 1 \x7d` fails citing the missing semicolon; in fact the
parse fails earlier, at the mandatory `:` return-type annotation after the
parameter list, with a different message. -/
theorem missing_semicolon_claim_counterexample :
    parseTokens (lexString "fn main() \x7b return 1 \x7d")
      = POut.err "Expected ':' after parameters"
    ∧ "Expected ':' after parameters" ≠ "Expected ';' after return statement" :=
  ⟨rfl, by decide⟩

/-- C4 amended: `fn main() \x7b return 1 \x7d` fails with the SyntaxError
"Expected ':' after parameters" (the grammar requires a return type before
the body); the missing-semicolon message "Expected ';' after return
statement" is reached once the return type is present, as in
`fn main(): i32 \x7b return 1 \x7d`. -/
theorem malformed_function_error_messages :
    parseTokens (lexString "fn main() \x7b return 1 \x7d")
      = POut.err "Expected ':' after parameters"
    ∧ parseTokens (lexString "fn main(): i32 \x7b return 1 \x7d")
      = POut.err "Expected ';' after return statement" :=
  ⟨rfl, rfl⟩

/-- C5: the type of a `Program` node is the type of its last child (with
the children checked in order, each seeing the previous one's environment)
and `Void` when it is empty; and a `Function` node's result type is its
body's type, registered under the function's name as a `Function` type
with an empty parameter list and that body type as return type. Since a
parsed function body is a `Program`, its type is the type of the body's
last statement. -/
theorem program_last_child_type :
    (∀ env : TypeEnvironment, check (AstNode.Program []) env = (Except.ok Ty.Void, env))
    ∧ (∀ (ns : List AstNode) (n : AstNode) (env env1 env2 : TypeEnvironment) (t tn : Ty),
        check (AstNode.Program ns) env = (Except.ok t, env1) →
        check n env1 = (Except.ok tn, env2) →
        check (AstNode.Program (ns ++ [n])) env = (Except.ok tn, env2))
    ∧ (∀ (name : String) (ps : List (String × String)) (body : AstNode)
        (env env1 : TypeEnvironment) (bt : Ty),
        check body env = (Except.ok bt, env1) →
        check (AstNode.Function name ps body) env =
          (Except.ok bt, insertEnv env1 name (Ty.Function [] bt))) := by
  refine ⟨fun env => rfl, ?_, ?_⟩
  · intro ns n env env1 env2 t tn h1 h2
    have h1' : checkSeq Ty.Void ns env = (Except.ok t, env1) := h1
    show checkSeq Ty.Void (ns ++ [n]) env = (Except.ok tn, env2)
    rw [checkSeq_append, h1']
    simp only [checkSeq, h2]
  · intro name ps body env env1 bt h
    show (match check body env with
      | (Except.ok body_type, env1) =>
          (Except.ok body_type, insertEnv env1 name (Ty.Function [] body_type))
      | (Except.error e, env1) => ((Except.error e : Except String Ty), env1))
      = (Except.ok bt, insertEnv env1 name (Ty.Function [] bt))
    rw [h]

/-- Witness for C5 at concrete inputs: a two-child program takes the type
of its second (last) child, and a function registers `main` with
`Function([], Int)` when its body checks to `Int`. -/
theorem program_last_child_type_witness :
    check (AstNode.Program [AstNode.Number 7, AstNode.Boolean true]) []
      = (Except.ok Ty.Bool, [])
    ∧ check (AstNode.Function "main" [] (AstNode.Program [AstNode.Return (AstNode.Number 7)])) []
      = (Except.ok Ty.Int, insertEnv [] "main" (Ty.Function [] Ty.Int)) :=
  ⟨program_last_child_type.2.1 [AstNode.Number 7] (AstNode.Boolean true) [] [] [] Ty.Int Ty.Bool rfl rfl,
   program_last_child_type.2.2 "main" [] (AstNode.Program [AstNode.Return (AstNode.Number 7)]) [] [] Ty.Int rfl⟩

/-- C6: generating a `Function` node whose body generated successfully
appends the default `ret` of the 32-bit constant 0 exactly when the entry
block is not already terminated (in particular not when the body ended in
an explicit `Return`), and either way the resulting entry block ends with
a terminator, before verification is requested. -/
theorem function_default_return :
    ∀ (st : CGState) (name : String) (ps : List (String × String)) (body : AstNode)
      (st2 : CGState),
      generate_expression { st with block := [] } body = (Except.ok (), st2) →
      (generate_expression st (AstNode.Function name ps body)).2.block
          = (if blockTerminated st2.block then st2.block
             else st2.block ++ [Instr.ret (Value.constI32 0)])
      ∧ blockTerminated (generate_expression st (AstNode.Function name ps body)).2.block
          = true := by
  intro st name ps body st2 h
  have e1 : generate_expression st (AstNode.Function name ps body)
      = (let st3 := if blockTerminated st2.block then st2
                    else emit st2 (Instr.ret (Value.constI32 0));
         if verifyBlock st3.block then (Except.ok (), st3)
         else (Except.error "Invalid function generated", st3)) := by
    show (match generate_expression { st with block := [] } body with
      | (Except.error e, st2) => ((Except.error e : Except String Unit), st2)
      | (Except.ok _, st2) =>
        let st3 := if blockTerminated st2.block then st2
                   else emit st2 (Instr.ret (Value.constI32 0))
        if verifyBlock st3.block then (Except.ok (), st3)
        else (Except.error "Invalid function generated", st3)) = _
    rw [h]
  rw [e1]
  simp only [snd_verify_ite]
  by_cases hb : blockTerminated st2.block <;>
    simp [hb, emit, blockTerminated_concat]

/-- Witness for C6 at a concrete input: an empty body leaves the entry
block unterminated, so the generated block is exactly the default
`ret 0`. -/
theorem function_default_return_witness :
    (generate_expression initCG (AstNode.Function "main" [] (AstNode.Program []))).2.block
        = (if blockTerminated initCG.block then initCG.block
           else initCG.block ++ [Instr.ret (Value.constI32 0)])
    ∧ blockTerminated (generate_expression initCG
        (AstNode.Function "main" [] (AstNode.Program []))).2.block = true :=
  function_default_return initCG "main" [] (AstNode.Program []) initCG rfl

/-- C7: binary-expression parsing is left-associative with a single
precedence tier: for any two operators (each of `+ - * /`) and any number
literals, `p1 op1 p2 op2 p3` parses as
`BinaryOp\x7bop2, left: BinaryOp\x7bop1, p1, p2\x7d, right: p3\x7d` — also when `op1`
is `+` or `-` and `op2` is `*` or `/`, so `*` and `/` get no extra binding
power. The trailing semicolon stops the operator loop; 64 is the fuel the
entry points would hand this token count, and any fuel above 3 gives the
same result. -/
theorem binary_parse_left_assoc :
    ∀ (n1 n2 n3 : Int) (op1 op2 : BinaryOperator),
      parseExpression 64
        { tokens := [Token.Number n1, opTokenOf op1, Token.Number n2,
                     opTokenOf op2, Token.Number n3, Token.Semicolon], current := 0 }
        = POut.ok
            (AstNode.BinaryOp op2
              (AstNode.BinaryOp op1 (AstNode.Number n1) (AstNode.Number n2))
              (AstNode.Number n3))
            { tokens := [Token.Number n1, opTokenOf op1, Token.Number n2,
                         opTokenOf op2, Token.Number n3, Token.Semicolon], current := 5 } := by
  intro n1 n2 n3 op1 op2
  cases op1 <;> cases op2 <;> rfl

/-- C8: type-checking `Let\x7bname: "y", type_annotation: Some("string"),
value: Number(42)\x7d` fails with the mismatch error naming the expected type
`String` and the actual type `Int`, and inserts nothing. -/
theorem let_string_mismatch_error :
    check (AstNode.Let "y" (some "string") (AstNode.Number 42)) []
      = (Except.error "Type mismatch: expected String, got Int", []) :=
  rfl

/-- C9: during generation, looking up an `Identifier` fails with the
"Undefined variable" error naming the identifier exactly when the name is
absent from the variable-storage map; when present, a 64-bit load from the
recorded slot is emitted and the call succeeds. The two implications
together give the claimed "if and only if". -/
theorem identifier_lookup_load :
    ∀ (st : CGState) (name : String),
      (lookupVar st.vars name = none →
        load_variable st name = (Except.error ("Undefined variable: " ++ name), st))
      ∧ (∀ slot : Nat, lookupVar st.vars name = some slot →
        load_variable st name
          = (Except.ok (Value.loaded slot), emit st (Instr.load 64 slot name))) := by
  intro st name
  constructor
  · intro h; simp [load_variable, h]
  · intro slot h; simp [load_variable, h]

/-- Witness for C9 at a concrete map: `x` is bound to slot 0 and loads;
`undeclared_var` is unbound and fails. -/
theorem identifier_lookup_load_witness :
    load_variable { block := [], vars := [("x", 0)], nextSlot := 1 } "x"
      = (Except.ok (Value.loaded 0),
         emit { block := [], vars := [("x", 0)], nextSlot := 1 } (Instr.load 64 0 "x"))
    ∧ load_variable { block := [], vars := [("x", 0)], nextSlot := 1 } "undeclared_var"
      = (Except.error ("Undefined variable: " ++ "undeclared_var"),
         { block := [], vars := [("x", 0)], nextSlot := 1 }) :=
  ⟨(identifier_lookup_load { block := [], vars := [("x", 0)], nextSlot := 1 } "x").2 0 rfl,
   (identifier_lookup_load { block := [], vars := [("x", 0)], nextSlot := 1 } "undeclared_var").1 rfl⟩

/-- C10 counterexample: the claim states that whenever checking a `Let`
fails, the environment is exactly as before and the `Let`'s name is
unbound. Checking `Let\x7b"x", Some("badtype"), Let\x7b"x", None, Number(1)\x7d\x7d`
in the empty environment fails (unknown annotation) yet leaves `x` bound
to `Int`: the nested `Let` in value position inserted its binding before
the outer failure. -/
theorem let_env_mutation_counterexample :
    check (AstNode.Let "x" (some "badtype") (AstNode.Let "x" none (AstNode.Number 1))) []
      = (Except.error "Unknown type: badtype", [("x", Ty.Int)])
    ∧ lookupEnv [("x", Ty.Int)] "x" = some Ty.Int
    ∧ ([("x", Ty.Int)] : TypeEnvironment) ≠ [] :=
  ⟨rfl, rfl, by simp⟩

/-- C10 amended: when checking a `Let` fails, the `Let` arm itself inserts
nothing — the final environment is exactly the environment left by
checking the value sub-expression; in particular, when the value contains
no binding construct (no `Let`, `Function` or `Program` node — which
includes every expression the parser can put in value position), the
environment is exactly as before the `Let` was checked. -/
theorem let_error_no_insert :
    ∀ (name : String) (ann : Option String) (value : AstNode)
      (env env1 : TypeEnvironment) (e : String),
      check (AstNode.Let name ann value) env = (Except.error e, env1) →
      env1 = (check value env).2 ∧ (noBind value = true → env1 = env) := by
  intro name ann value env env1 e h
  have key : env1 = (check value env).2 := by
    simp only [check] at h
    rcases hv : check value env with ⟨r, envv⟩
    rw [hv] at h
    cases r with
    | error e2 =>
      simp only [Prod.mk.injEq] at h
      simp [h.2]
    | ok vt =>
      cases ann with
      | none => simp at h
      | some tn =>
        cases hr : resolveTypeName tn with
        | none =>
          simp only [hr, Prod.mk.injEq] at h
          simp [h.2]
        | some et =>
          simp only [hr] at h
          by_cases ht : tyBeq vt et
          · rw [if_pos ht] at h
            simp at h
          · rw [if_neg ht] at h
            simp only [Prod.mk.injEq] at h
            simp [h.2]
  exact ⟨key, fun hnb => by rw [key, check_noBind value hnb env]⟩

/-- Witness for C10 amended at a concrete failing `Let` (the String/Int
mismatch): the environment after the failure is the one the value left,
and since the value is a bare literal, it is exactly the original. -/
theorem let_error_no_insert_witness :
    (([] : TypeEnvironment) = (check (AstNode.Number 42) []).2)
    ∧ (noBind (AstNode.Number 42) = true → ([] : TypeEnvironment) = []) :=
  let_error_no_insert "y" (some "string") (AstNode.Number 42) [] []
    "Type mismatch: expected String, got Int" rfl
